import Mathlib

/-!
# Verification development for the smart-currency-selector trading engine

Shallow embedding of the trade engine of this repository:

* `trade/services/sell_service.py`  (`SellService`)
* `trade/services/buy_service.py`   (`BuyService`)
* `trade/services/trade_monitor.py` (`TradeMonitor._check_new_suggestions`)
* `trade/utils/solana_client.py`    (`SolanaTrader.sell_tokens`, `_get_slippage_for_token`)
* `backend/services/token_analyzer.py` (`TokenAnalyzer._analyze_token`, `_evaluate_token`)

Modelling conventions:

* Python floats are modelled as `ℚ`.  Division is `ℚ` division (total, `x / 0 = 0`);
  wherever a Python `ZeroDivisionError` is control-flow relevant it is modelled
  explicitly (see `executeBuy`) or excluded by a positivity hypothesis.
* Wall-clock time is a single rational timeline measured in hours, so the SQL
  intervals become: 2 hours = `2`, 24 hours = `24`, 2 minutes = `1/30`,
  30 seconds = `1/120`, 1 hour = `1`.  `CURRENT_DATE` is a `todayStart` parameter.
* The relational store (`trades`, `token_blacklist` tables) is the `Store`
  structure; SQL statements become list operations on it.
* Network / blockchain side effects are oracles packed in an environment
  structure.  A Python function that returns `None` on failure *or* swallows an
  exception and returns `None` is modelled as an `Option`-valued oracle where
  `none` covers both outcomes.
* `status` is kept as a `String` exactly as stored in the database.
-/

namespace SmartCurrency

/-- Python truthiness of an optional float (`if x:`): `None` and `0.0` are falsy. -/
def optTruthy : Option ℚ → Bool
  | none => false
  | some p => decide (p ≠ 0)

/-- `v is not None and v < bound` (the guard pattern used all over the analyzer). -/
def optSomeLt (v : Option ℚ) (bound : ℚ) : Bool :=
  match v with
  | some x => decide (x < bound)
  | none => false

/-- `v is not None and v > bound`. -/
def optSomeGt (v : Option ℚ) (bound : ℚ) : Bool :=
  match v with
  | some x => decide (x > bound)
  | none => false

/-! ## Data model: trades and blacklist (tables `trades`, `token_blacklist`) -/

/-- A row of the `trades` table. -/
structure Trade where
  id : Nat
  tokenAddress : String
  tokenSymbol : String
  tokenName : String
  tokenDecimals : Nat
  buyPrice : ℚ
  buyAmount : ℚ
  buyTxHash : Option String
  buyTime : ℚ
  sellPrice : Option ℚ
  sellAmount : Option ℚ
  sellTxHash : Option String
  sellTime : Option ℚ
  sellReason : Option String
  profitLossAmount : Option ℚ
  profitLossPct : Option ℚ
  status : String
  suggestionId : Option String
deriving Repr, DecidableEq

/-- A row of the `token_blacklist` table. -/
structure BlacklistEntry where
  tokenAddress : String
  tokenSymbol : String
  reason : String
  lossPercentage : ℚ
  tradeId : Nat
  blacklistedAt : ℚ
deriving Repr, DecidableEq

/-- The relational store the two services read and write. -/
structure Store where
  trades : List Trade
  blacklist : List BlacklistEntry
  nextId : Nat
deriving Repr, DecidableEq

/-! ## SellService (`trade/services/sell_service.py`) -/

/-- The two configured thresholds loaded by `SellService._load_config`
(defaults `20` and `10`; the stop loss is stored positive and negated at use). -/
structure SellConfig where
  profitTargetPct : ℚ
  stopLossPct : ℚ
deriving Repr, DecidableEq

/-- `SellService._should_sell(price_change_pct, in_cooldown)`.
Mirrors the source order: mega-profit (≥ 50) first, then the cooldown gate,
then profit target, then stop loss. -/
def shouldSell (cfg : SellConfig) (priceChangePct : ℚ) (inCooldown : Bool) : Option String :=
  let megaProfitThreshold : ℚ := 50
  if priceChangePct ≥ megaProfitThreshold then some "MEGA_PROFIT"
  else if inCooldown then none
  else if priceChangePct ≥ cfg.profitTargetPct then some "PROFIT_TARGET"
  else if priceChangePct ≤ -cfg.stopLossPct then some "STOP_LOSS"
  else none

/-- One element of the list produced by `SellService.check_open_trades_for_sell`. -/
structure TradeToSell where
  trade : Trade
  currentPrice : ℚ
  priceChangePct : ℚ
  sellReason : String
deriving Repr, DecidableEq

/-- Body of the per-trade loop of `check_open_trades_for_sell` for one OPEN trade.
`in_cooldown` is the SQL flag `buy_time > NOW() - INTERVAL '2 hours'`,
`is_24h_old` is `buy_time <= NOW() - INTERVAL '24 hours'`; `oracle` is
`_get_current_token_price` (`none` = fetch failed or raised).  The 24h branch
appends `TIMEOUT_24H` unconditionally, falling back to the buy price when the
price fetch is falsy; otherwise a falsy price skips the trade and the price
branch consults `_should_sell`. -/
def evalOpenTrade (cfg : SellConfig) (now : ℚ) (oracle : String → Option ℚ)
    (t : Trade) : Option TradeToSell :=
  let inCooldown : Bool := decide (t.buyTime > now - 2)
  let is24hOld : Bool := decide (t.buyTime ≤ now - 24)
  if is24hOld then
    let cp := oracle t.tokenAddress
    let pct : ℚ := if optTruthy cp then ((cp.getD 0 - t.buyPrice) / t.buyPrice) * 100 else 0
    some ⟨t, if optTruthy cp then cp.getD 0 else t.buyPrice, pct, "TIMEOUT_24H"⟩
  else
    match oracle t.tokenAddress with
    | none => none
    | some p =>
      if p = 0 then none   -- `if current_price:` — 0.0 is falsy
      else
        let pct : ℚ := ((p - t.buyPrice) / t.buyPrice) * 100
        match shouldSell cfg pct inCooldown with
        | some reason => some ⟨t, p, pct, reason⟩
        | none => none

/-- `SellService.check_open_trades_for_sell`: the SQL selects rows with
`status = 'OPEN'`, then the Python loop classifies each one. -/
def checkOpenTradesForSell (cfg : SellConfig) (st : Store) (now : ℚ)
    (oracle : String → Option ℚ) : List TradeToSell :=
  (st.trades.filter (fun t => t.status == "OPEN")).filterMap (evalOpenTrade cfg now oracle)

/-- `LEAST`-keeping upsert of `_record_sell_transaction`:
`INSERT ... ON CONFLICT (token_address) DO UPDATE SET
 loss_percentage = LEAST(old, EXCLUDED), trade_id = EXCLUDED.trade_id,
 blacklisted_at = CURRENT_TIMESTAMP`. -/
def upsertBlacklist (bl : List BlacklistEntry) (e : BlacklistEntry) : List BlacklistEntry :=
  if bl.any (fun b => b.tokenAddress == e.tokenAddress) then
    bl.map (fun b =>
      if b.tokenAddress == e.tokenAddress then
        { b with lossPercentage := min b.lossPercentage e.lossPercentage,
                 tradeId := e.tradeId, blacklistedAt := e.blacklistedAt }
      else b)
  else bl ++ [e]

/-- The single `UPDATE trades SET ... status = 'CLOSED' ... WHERE id = %s`
statement: all sell fields and the status flip together. -/
def closeTradeRow (t : Trade) (sellPrice sellAmount : ℚ) (txHash sellReason : String)
    (pl plPct : ℚ) (now : ℚ) : Trade :=
  { t with sellPrice := some sellPrice, sellAmount := some sellAmount,
           sellTxHash := some txHash, sellTime := some now,
           sellReason := some sellReason, profitLossAmount := some pl,
           profitLossPct := some plPct, status := "CLOSED" }

/-- `SellService._record_sell_transaction`: close the trade row, then — only when
`sell_reason == 'STOP_LOSS' and profit_loss_pct <= -10` — upsert the blacklist
(the token info is SELECTed from the pre-update row; a missing row makes the
blacklist block raise inside its own try/except, i.e. no blacklist write). -/
def recordSellTransaction (st : Store) (tradeId : Nat) (sellPrice sellAmount : ℚ)
    (txHash sellReason : String) (pl plPct : ℚ) (now : ℚ) : Store :=
  let st' : Store :=
    { st with trades := st.trades.map (fun t =>
        if t.id = tradeId then closeTradeRow t sellPrice sellAmount txHash sellReason pl plPct now
        else t) }
  if sellReason = "STOP_LOSS" ∧ plPct ≤ -10 then
    match st.trades.find? (fun t => t.id == tradeId) with
    | some tinfo =>
        let entry : BlacklistEntry :=
          ⟨tinfo.tokenAddress, tinfo.tokenSymbol, "Stop loss triggered", plPct, tradeId, now⟩
        { st' with blacklist := upsertBlacklist st'.blacklist entry }
    | none => st'
  else st'

/-- Effects `SellService.execute_sell` consults: the real wallet balance
(`trader.get_token_balance`) and the outcome of
`_execute_real_sell_transaction` (`none` = `sell_tokens` returned no hash or
raised — both paths return `None` in the source, never a simulated hash). -/
structure SellExecEnv where
  realBalance : ℚ
  sellTxHash : Option String
  now : ℚ
deriving Repr, DecidableEq

/-- The dict returned by a successful `SellService.execute_sell`. -/
structure SellResult where
  tradeId : Nat
  tokenAddress : String
  sellPrice : ℚ
  sellAmount : ℚ
  profitLoss : ℚ
  profitLossPct : ℚ
  sellReason : String
  transactionHash : String
deriving Repr, DecidableEq

/-- `SellService.execute_sell(trade_info)`.  Aborts on non-positive wallet
balance; sells 99.5% of the real balance; computes P&L proportionally when the
sold quantity is below the recorded buy amount; performs the database close
*only* when a transaction hash came back from the real swap. -/
def executeSell (env : SellExecEnv) (st : Store) (info : TradeToSell) :
    Option SellResult × Store :=
  let trade := info.trade
  let currentPrice := info.currentPrice
  if env.realBalance ≤ 0 then (none, st)
  else
    let sellAmount := env.realBalance * (995 / 1000)
    let buyTotalOriginal := trade.buyPrice * trade.buyAmount
    let sellTotal := currentPrice * sellAmount
    let plPair : ℚ × ℚ :=
      if sellAmount < trade.buyAmount then
        let cost := trade.buyPrice * sellAmount
        (sellTotal - cost, ((sellTotal - cost) / cost) * 100)
      else
        (sellTotal - buyTotalOriginal,
         ((sellTotal - buyTotalOriginal) / buyTotalOriginal) * 100)
    match env.sellTxHash with
    | none => (none, st)
    | some tx =>
        let st' := recordSellTransaction st trade.id currentPrice sellAmount tx
          info.sellReason plPair.1 plPair.2 env.now
        (some ⟨trade.id, trade.tokenAddress, currentPrice, sellAmount,
               plPair.1, plPair.2, info.sellReason, tx⟩, st')

/-! ## BuyService (`trade/services/buy_service.py`) -/

/-- The only configuration flag `should_buy_token` consults:
`config.get('auto_trading_enabled', 'false').lower() == 'true'`. -/
structure BuyConfig where
  autoTradingEnabled : Bool
deriving Repr, DecidableEq

/-- `BuyService.should_buy_token(token_address)`, in source order:
trading enabled; token not in `token_blacklist`; no `trades` row with
`status = 'OPEN'` for the address; no row bought within the last 2 minutes
(`buy_time > NOW() - INTERVAL '2 minutes'`, i.e. `> now - 1/30` hours).  The
final history query only logs and always lets the purchase through. -/
def shouldBuyToken (cfg : BuyConfig) (st : Store) (now : ℚ) (tokenAddress : String) : Bool :=
  if !cfg.autoTradingEnabled then false
  else if st.blacklist.any (fun b => b.tokenAddress == tokenAddress) then false
  else if st.trades.any (fun t => t.tokenAddress == tokenAddress && t.status == "OPEN") then false
  else if st.trades.any (fun t =>
      t.tokenAddress == tokenAddress && decide (t.buyTime > now - 1 / 30)) then false
  else true

/-- Result shapes of `trader.buy_token`: the current dict
`{transaction_hash, tokens_bought}` or the legacy plain-string hash. -/
inductive SwapBuyResult where
  | dict (transactionHash : Option String) (tokensBought : ℚ)
  | legacy (transactionHash : String)
deriving Repr, DecidableEq

/-- Effects `BuyService.execute_buy` consults: the live price fetch
(`_get_current_token_price`; `none` = fetch failed, raised, or the API flagged
failure), the swap outcome (`trader.buy_token`; `none` = falsy result), the
post-buy wallet balance and the token's decimals. -/
structure BuyEnv where
  priceFetch : Option ℚ
  swapResult : Option SwapBuyResult
  realBalance : ℚ
  tokenDecimals : Nat
  now : ℚ

/-- The candidate dict handed to `execute_buy` (symbol/name resolution of
`_record_buy_transaction` is pre-applied; `price_usd` defaults to 0). -/
structure BuyTokenData where
  tokenAddress : Option String
  tokenSymbol : String
  tokenName : String
  priceUsd : ℚ
  suggestionId : Option String
deriving Repr, DecidableEq

/-- `BuyService._get_sol_price` (fixed stub value in the source). -/
def getSolPrice : ℚ := 150

/-- `BuyService._record_buy_transaction`: one `INSERT INTO trades ... 'OPEN'`
with every sell field absent (null); the stored suggestion id is
`suggestion_id or token_data.get('suggestion_id')`. -/
def recordBuyTransaction (st : Store) (data : BuyTokenData) (buyPrice buyAmount : ℚ)
    (txHash : Option String) (suggestionId : Option String) (tokenDecimals : Nat)
    (now : ℚ) : Trade × Store :=
  let t : Trade :=
    { id := st.nextId
      tokenAddress := data.tokenAddress.getD ""
      tokenSymbol := data.tokenSymbol
      tokenName := data.tokenName
      tokenDecimals := tokenDecimals
      buyPrice := buyPrice
      buyAmount := buyAmount
      buyTxHash := txHash
      buyTime := now
      sellPrice := none
      sellAmount := none
      sellTxHash := none
      sellTime := none
      sellReason := none
      profitLossAmount := none
      profitLossPct := none
      status := "OPEN"
      suggestionId := suggestionId.orElse (fun _ => data.suggestionId) }
  (t, { st with trades := st.trades ++ [t], nextId := st.nextId + 1 })

/-- What one `execute_buy` call did: the recorded trade (if any), the resulting
store, and whether `trader.buy_token` — the swap executor — was invoked. -/
structure BuyOutcome where
  result : Option Trade
  store : Store
  swapInvoked : Bool

/-- Lines 190–203 of `execute_buy`: the fetched live price is kept when truthy
and positive; otherwise the candidate's `price_usd` is the fallback, and a
non-positive fallback cancels the buy (`none`). -/
def resolveBuyPrice (fetched : Option ℚ) (priceUsd : ℚ) : Option ℚ :=
  if !optTruthy fetched ∨ fetched.getD 0 ≤ 0 then
    if priceUsd ≤ 0 then none else some priceUsd
  else fetched

/-- Lines 214–244 of `execute_buy`: extract the transaction hash and token
amount from the swap result.  Dict branch: with a positive wallet balance, a
zero computed amount makes the 10%-discrepancy test divide by zero
(`ZeroDivisionError`, caught by the outer handler → nothing recorded, `none`
here); a discrepancy above 10% replaces the amount with the real balance.
Legacy branch: amount = `0.01 SOL × SOL price / price`. -/
def resolveBuyAmount (br : SwapBuyResult) (realBalance price : ℚ) :
    Option (Option String × ℚ) :=
  match br with
  | .dict tx tokensBought =>
      if realBalance > 0 then
        if tokensBought = 0 then none
        else if |realBalance - tokensBought| / tokensBought > 1 / 10 then
          some (tx, realBalance)
        else some (tx, tokensBought)
      else some (tx, tokensBought)
  | .legacy tx =>
      let amountUsd := (1 / 100 : ℚ) * getSolPrice
      some (some tx, if price > 0 then amountUsd / price else 0)

/-- The duplicate-`suggestion_id` pre-check of `execute_buy` (its SELECT finds
any prior trade carrying the same suggestion id). -/
def suggestionIdTaken (st : Store) (suggestionId : Option String) : Bool :=
  match suggestionId with
  | some sid => st.trades.any (fun t => t.suggestionId == some sid)
  | none => false

/-- `BuyService.execute_buy(token_data, suggestion_id)`.  In source order:
missing/empty token address aborts; a duplicated `suggestion_id` aborts;
`should_buy_token` gatekeeps; the buy price is resolved (possibly from the
stale snapshot); only then is the swap invoked; a falsy swap result records
nothing; otherwise the trade row is inserted OPEN. -/
def executeBuy (cfg : BuyConfig) (env : BuyEnv) (st : Store) (data : BuyTokenData)
    (suggestionId : Option String) : BuyOutcome :=
  if data.tokenAddress = none ∨ data.tokenAddress = some "" then ⟨none, st, false⟩
  else if suggestionIdTaken st suggestionId then ⟨none, st, false⟩
  else if !shouldBuyToken cfg st env.now (data.tokenAddress.getD "") then ⟨none, st, false⟩
  else
    match resolveBuyPrice env.priceFetch data.priceUsd with
    | none => ⟨none, st, false⟩
    | some price =>
      match env.swapResult with
      | none => ⟨none, st, true⟩
      | some br =>
        match resolveBuyAmount br env.realBalance price with
        | none => ⟨none, st, true⟩
        | some (tx, amount) =>
          let ins := recordBuyTransaction st data price amount tx suggestionId
            env.tokenDecimals env.now
          ⟨some ins.1, ins.2, true⟩

/-! ## TradeMonitor (`trade/services/trade_monitor.py`) -/

/-- A row of the `suggested_tokens` table as read by
`TradeMonitor._check_new_suggestions`. -/
structure Suggestion where
  suggestionId : String
  tokenAddress : String
  tokenName : String
  tokenSymbol : String
  priceUsd : ℚ
  analysisScore : ℚ
  suggestedAt : ℚ
deriving Repr, DecidableEq

/-- `COUNT(*) FROM trades WHERE token_address = a AND buy_time > CURRENT_DATE`. -/
def tradesTodayCount (st : Store) (todayStart : ℚ) (addr : String) : Nat :=
  (st.trades.filter (fun t =>
    t.tokenAddress == addr && decide (t.buyTime > todayStart))).length

/-- The WHERE clause of the suggestion query in
`TradeMonitor._check_new_suggestions`: no OPEN position, suggested within the
last hour, score ≥ 80, not bought within the last 30 seconds, no profitable
close within the last 2 hours, and fewer than 3 trades today for the token —
only suggestions passing every conjunct are handed to `execute_buy`. -/
def monitorSelectsSuggestion (st : Store) (now todayStart : ℚ) (s : Suggestion) : Bool :=
  !(st.trades.any (fun t => t.tokenAddress == s.tokenAddress && t.status == "OPEN")) &&
  decide (s.suggestedAt > now - 1) &&
  decide (s.analysisScore ≥ 80) &&
  !(st.trades.any (fun t =>
      t.tokenAddress == s.tokenAddress && decide (t.buyTime > now - 1 / 120))) &&
  !(st.trades.any (fun t =>
      t.tokenAddress == s.tokenAddress &&
      (t.status == "SOLD" || t.status == "CLOSED") &&
      (match t.profitLossPct with | some v => decide (v > 0) | none => false) &&
      (match t.sellTime with | some ts => decide (ts > now - 2) | none => false))) &&
  decide (tradesTodayCount st todayStart s.tokenAddress < 3)

/-! ## SolanaTrader sell fallback chain (`trade/utils/solana_client.py`) -/

/-- The slippage-relevant state of a `SolanaTrader` instance:
the configured default and high-volatility tolerances, the persistent
high-volatility token set, and the per-instance `_extreme_slippage_tokens`
set populated by `sell_tokens` before its second attempt. -/
structure SlippageState where
  defaultSlippageBps : Nat
  highVolSlippageBps : Nat
  highVolatilityTokens : List String
  extremeSlippageTokens : List String
deriving Repr, DecidableEq

/-- `SolanaTrader._get_slippage_for_token`: extreme set → 2000 BPS, else
high-volatility set → configured high-volatility BPS, else default BPS. -/
def getSlippageForToken (st : SlippageState) (token : String) : Nat :=
  if st.extremeSlippageTokens.any (fun t => t == token) then 2000
  else if st.highVolatilityTokens.any (fun t => t == token) then st.highVolSlippageBps
  else st.defaultSlippageBps

/-- One attempted strategy of the `sell_tokens` fallback chain.  A Jupiter
attempt (`_attempt_single_sell`) quotes at the slippage
`_get_slippage_for_token` yields at call time; the Raydium attempt
(`_attempt_raydium_sdk_sell`) bypasses the aggregator. -/
inductive SellStep where
  | jupiter (amount : ℚ) (slippageBps : Nat)
  | raydium (amount : ℚ)
deriving Repr, DecidableEq

/-- Outcomes of the external attempts inside `sell_tokens`: the token-account
pre-verification, the Jupiter attempt numbered 1..3 (with the amount and
slippage it was given), and the native Raydium attempt.  `none` = the attempt
failed or raised (each attempt swallows its own exceptions). -/
structure SellChainEnv where
  verifyAccounts : Bool
  jupiterAttempt : Nat → ℚ → Nat → Option String
  raydiumAttempt : ℚ → Option String

/-- `SolanaTrader.sell_tokens(token_address, amount, ...)`, returning the
transaction hash (or `none`), the slippage state after the call, and the trace
of strategies actually attempted.  Source order: account verification aborts
everything; attempt 1 at the token's current slippage; on failure the token is
added to `_extreme_slippage_tokens` (a 3 s sleep is timing, not modelled) and
attempt 2 re-quotes; on failure attempt 3 retries with `amount * 0.95`
(re-quoting with the extreme set still in effect); on failure the Raydium SDK
route runs; `none` is returned only after all four fail. -/
def sellTokens (st : SlippageState) (env : SellChainEnv) (token : String) (amount : ℚ) :
    Option String × SlippageState × List SellStep :=
  if !env.verifyAccounts then (none, st, [])
  else
    let s1 := getSlippageForToken st token
    match env.jupiterAttempt 1 amount s1 with
    | some h => (some h, st, [SellStep.jupiter amount s1])
    | none =>
      let st' : SlippageState :=
        { st with extremeSlippageTokens := token :: st.extremeSlippageTokens }
      let s2 := getSlippageForToken st' token
      match env.jupiterAttempt 2 amount s2 with
      | some h => (some h, st', [SellStep.jupiter amount s1, SellStep.jupiter amount s2])
      | none =>
        let s3 := getSlippageForToken st' token
        let reduced := amount * (95 / 100)
        match env.jupiterAttempt 3 reduced s3 with
        | some h =>
            (some h, st', [SellStep.jupiter amount s1, SellStep.jupiter amount s2,
                           SellStep.jupiter reduced s3])
        | none =>
          match env.raydiumAttempt amount with
          | some h =>
              (some h, st', [SellStep.jupiter amount s1, SellStep.jupiter amount s2,
                             SellStep.jupiter reduced s3, SellStep.raydium amount])
          | none =>
              (none, st', [SellStep.jupiter amount s1, SellStep.jupiter amount s2,
                           SellStep.jupiter reduced s3, SellStep.raydium amount])

/-! ## TokenAnalyzer (`backend/services/token_analyzer.py`) -/

/-- The `self.criteria` dict of `TokenAnalyzer.__init__` (names ending in
`_ratio` are rendered as `VolLiqQuot`). -/
structure Criteria where
  maxMarketCap : ℚ
  minLiquidity : ℚ
  optimalLiquidityMin : ℚ
  optimalLiquidityMax : ℚ
  minVolume24h : ℚ
  maxInitialVolume24h : ℚ
  maxVolLiqQuot : ℚ
  warningVolLiqQuot : ℚ
  optimalVolLiqQuotMin : ℚ
  optimalVolLiqQuotMax : ℚ
  minDextScore : ℚ
  minHolders : ℚ
  maxHoldersIfDropping : ℚ
  maxAgeHours : ℚ
  minPriceChange24h : ℚ
  minPriceChange1h : ℚ
  minPriceChange5m : ℚ
  maxPriceDrop24h : ℚ
  maxPriceDrop1h : ℚ
  maxPriceDrop5m : ℚ
deriving Repr, DecidableEq

/-- The literal values assigned in `TokenAnalyzer.__init__`. -/
def defaultCriteria : Criteria where
  maxMarketCap := 3000000
  minLiquidity := 50000
  optimalLiquidityMin := 100000
  optimalLiquidityMax := 200000
  minVolume24h := 10000
  maxInitialVolume24h := 2000000
  maxVolLiqQuot := 8
  warningVolLiqQuot := 10
  optimalVolLiqQuotMin := 1 / 2
  optimalVolLiqQuotMax := 5
  minDextScore := 85
  minHolders := 100
  maxHoldersIfDropping := 2000
  maxAgeHours := 936
  minPriceChange24h := -5
  minPriceChange1h := -5
  minPriceChange5m := -10
  maxPriceDrop24h := -15
  maxPriceDrop1h := -10
  maxPriceDrop5m := -15

/-- The `token_data` record built by `_extract_token_data` from the complete
analysis, as consumed by `_evaluate_token` (only fields its rejection checks
read; optional fields mirror the `is not None` guards). -/
structure EvalTokenData where
  marketCap : Option ℚ
  liquidity : Option ℚ
  volume24h : Option ℚ
  dextScore : Option ℚ
  ageHours : Option ℚ
  holdersCount : Option ℚ
  priceChange24h : Option ℚ
  priceChange1h : Option ℚ
  priceChange5m : Option ℚ
deriving Repr, DecidableEq

/-- `_evaluate_token` approves iff its `reasons` list stays empty; each conjunct
below is the negation of one reason-appending condition, in source order (the
warning-only branches do not affect approval).  The numeric opportunity score
is not modelled — no claim concerns it. -/
def evaluateApproved (c : Criteria) (d : EvalTokenData) : Bool :=
  !(optTruthy d.marketCap && decide (d.marketCap.getD 0 > c.maxMarketCap)) &&
  !(optSomeLt d.liquidity c.minLiquidity) &&
  !(optSomeLt d.volume24h c.minVolume24h) &&
  !(optSomeLt d.dextScore c.minDextScore) &&
  !(optSomeGt d.ageHours c.maxAgeHours) &&
  !(optSomeLt d.holdersCount c.minHolders) &&
  !(optSomeLt d.priceChange24h c.maxPriceDrop24h) &&
  !(optSomeLt d.priceChange1h c.maxPriceDrop1h) &&
  !(optSomeLt d.priceChange24h c.minPriceChange24h) &&
  !(optSomeLt d.priceChange1h c.minPriceChange1h) &&
  !(optSomeLt d.priceChange5m c.maxPriceDrop5m) &&
  !(optSomeLt d.priceChange5m c.minPriceChange5m)

/-- Everything `_analyze_token` observes about one candidate: derived ages
(`None` when the creation time is absent or unparsable), the success flag of
each API phase, the raw numbers with the Python `.get(key, 0)` defaults
pre-applied, and the token data of the final complete-analysis phase. -/
structure TokenFetch where
  poolAgeHours : Option ℚ
  basicInfoOk : Bool
  tokenAgeHours : Option ℚ
  priceOk : Bool
  variation24h : Option ℚ
  variation1h : Option ℚ
  metricsOk : Bool
  mcap : ℚ
  liquidity : ℚ
  volume24h : ℚ
  holders : ℚ
  scoreOk : Bool
  dextScore : ℚ
  completeOk : Bool
  finalData : EvalTokenData
deriving Repr, DecidableEq

/-- Outcome of `_analyze_token`: approval, or rejection tagged with the
`rejection_category` string passed to `_reject_token` (the formatted reason
text is logging, not modelled). -/
inductive AnalysisOutcome where
  | approved
  | rejected (category : String)
deriving Repr, DecidableEq

/-- `TokenAnalyzer._analyze_token`, phase by phase in source order: pool age;
basic info fetch; token age; price fetch; 24h/1h hard-drop ceilings; 24h
minimum-growth floor; metrics fetch; market-cap ceiling (`if market_cap and
market_cap > max`); liquidity floor; volume floor; volume/liquidity quotient
checks (guarded by `liquidity > 0`); absolute initial-volume ceiling; holder
floor; holder/price distribution red flag; security score (0 when the score
fetch fails); complete analysis fetch; final `_evaluate_token` verdict. -/
def analyzeToken (c : Criteria) (d : TokenFetch) : AnalysisOutcome :=
  if optSomeGt d.poolAgeHours c.maxAgeHours then .rejected "age_check"
  else if !d.basicInfoOk then .rejected "api_error"
  else if optSomeGt d.tokenAgeHours c.maxAgeHours then .rejected "age_check"
  else if !d.priceOk then .rejected "api_error"
  else if optSomeLt d.variation24h c.maxPriceDrop24h then .rejected "price_drop"
  else if optSomeLt d.variation1h c.maxPriceDrop1h then .rejected "price_drop"
  else if optSomeLt d.variation24h c.minPriceChange24h then .rejected "declining_trend"
  else if !d.metricsOk then .rejected "api_error"
  else if d.mcap ≠ 0 ∧ d.mcap > c.maxMarketCap then .rejected "market_cap"
  else if d.liquidity < c.minLiquidity then .rejected "liquidity"
  else if d.volume24h < c.minVolume24h then .rejected "volume"
  else if d.liquidity > 0 ∧ d.volume24h / d.liquidity > c.warningVolLiqQuot then
    .rejected "pump_warning"
  else if d.liquidity > 0 ∧ d.volume24h / d.liquidity > c.maxVolLiqQuot then
    .rejected "high_volume_ratio"
  else if d.volume24h > c.maxInitialVolume24h then .rejected "excessive_volume"
  else if d.holders < c.minHolders then .rejected "holders"
  else if d.holders > c.maxHoldersIfDropping ∧ optSomeLt d.variation24h (-5) then
    .rejected "bad_distribution"
  else if (if d.scoreOk then d.dextScore else 0) < c.minDextScore then
    .rejected "security_score"
  else if !d.completeOk then .rejected "api_error"
  else if evaluateApproved c d.finalData then .approved
  else .rejected "final_evaluation"

/-- Conjunction of every check of `analyzeToken` that precedes the liquidity
floor, each conjunct negating one earlier rejection condition. -/
def passesBeforeLiquidity (c : Criteria) (d : TokenFetch) : Bool :=
  !(optSomeGt d.poolAgeHours c.maxAgeHours) &&
  d.basicInfoOk &&
  !(optSomeGt d.tokenAgeHours c.maxAgeHours) &&
  d.priceOk &&
  !(optSomeLt d.variation24h c.maxPriceDrop24h) &&
  !(optSomeLt d.variation1h c.maxPriceDrop1h) &&
  !(optSomeLt d.variation24h c.minPriceChange24h) &&
  d.metricsOk &&
  !(decide (d.mcap ≠ 0 ∧ d.mcap > c.maxMarketCap))

/-! ## Invariants and structural lemmas -/

/-- Number of trades rows with `status = 'OPEN'` for an address
(the COUNT of the second query of `should_buy_token`). -/
def openCountFor (st : Store) (addr : String) : Nat :=
  (st.trades.filter (fun t => t.tokenAddress == addr && t.status == "OPEN")).length

/-- At most one OPEN trade per token address. -/
def atMostOneOpen (st : Store) : Prop :=
  ∀ addr : String, openCountFor st addr ≤ 1

/-- Row-level null-discipline of a trade: status is OPEN or CLOSED, the sell
fields are null exactly on OPEN rows, and CLOSED holds exactly when
`sell_time` and `sell_price` are set. -/
def tradeRowInv (t : Trade) : Prop :=
  (t.status = "OPEN" ∨ t.status = "CLOSED") ∧
  (t.status = "OPEN" ↔
    t.sellPrice = none ∧ t.sellAmount = none ∧ t.sellTime = none ∧ t.sellReason = none) ∧
  (t.status = "CLOSED" ↔ t.sellTime ≠ none ∧ t.sellPrice ≠ none)

/-- Store-level null-discipline: every trade row satisfies `tradeRowInv`. -/
def storeInv (st : Store) : Prop :=
  ∀ t ∈ st.trades, tradeRowInv t

theorem recordSellTransaction_trades (st : Store) (tradeId : Nat) (sp sa : ℚ)
    (tx r : String) (pl plPct now : ℚ) :
    (recordSellTransaction st tradeId sp sa tx r pl plPct now).trades =
      st.trades.map (fun t =>
        if t.id = tradeId then closeTradeRow t sp sa tx r pl plPct now else t) := by
  unfold recordSellTransaction
  split
  · split <;> rfl
  · rfl

theorem recordSellTransaction_blacklist_of_not_stop (st : Store) (tradeId : Nat)
    (sp sa : ℚ) (tx r : String) (pl plPct now : ℚ)
    (h : ¬(r = "STOP_LOSS" ∧ plPct ≤ -10)) :
    (recordSellTransaction st tradeId sp sa tx r pl plPct now).blacklist = st.blacklist := by
  unfold recordSellTransaction
  rw [if_neg h]

/-- `executeSell` either leaves the store untouched or applies one
`recordSellTransaction` for the trade under consideration. -/
theorem executeSell_store_cases (env : SellExecEnv) (st : Store) (info : TradeToSell) :
    (executeSell env st info).2 = st ∨
    ∃ sp sa tx pl plPct,
      env.sellTxHash = some tx ∧
      (executeSell env st info).2 =
        recordSellTransaction st info.trade.id sp sa tx info.sellReason pl plPct env.now := by
  unfold executeSell
  split
  · exact Or.inl rfl
  · split
    · exact Or.inl rfl
    · next tx heq =>
        exact Or.inr ⟨_, _, tx, _, _, heq, rfl⟩

/-- `executeBuy` either leaves the store untouched or inserts one OPEN trade
via `recordBuyTransaction`, and only after `should_buy_token` approved. -/
theorem executeBuy_store_cases (cfg : BuyConfig) (env : BuyEnv) (st : Store)
    (data : BuyTokenData) (sid : Option String) :
    (executeBuy cfg env st data sid).store = st ∨
    ∃ price amount tx,
      shouldBuyToken cfg st env.now (data.tokenAddress.getD "") = true ∧
      (executeBuy cfg env st data sid).store =
        (recordBuyTransaction st data price amount tx sid env.tokenDecimals env.now).2 := by
  unfold executeBuy
  split
  · exact Or.inl rfl
  · split
    · exact Or.inl rfl
    · split
      · exact Or.inl rfl
      · next hgate =>
          have hgate' : shouldBuyToken cfg st env.now (data.tokenAddress.getD "") = true := by
            revert hgate
            cases shouldBuyToken cfg st env.now (data.tokenAddress.getD "") <;> simp
          split
          · exact Or.inl rfl
          · split
            · exact Or.inl rfl
            · split
              · exact Or.inl rfl
              · exact Or.inr ⟨_, _, _, hgate', rfl⟩

theorem shouldBuyToken_false_of_any_open (cfg : BuyConfig) (st : Store) (now : ℚ)
    (addr : String)
    (h : st.trades.any (fun t => t.tokenAddress == addr && t.status == "OPEN") = true) :
    shouldBuyToken cfg st now addr = false := by
  simp [shouldBuyToken, h]

theorem shouldBuyToken_false_of_blacklisted (cfg : BuyConfig) (st : Store) (now : ℚ)
    (addr : String) (h : st.blacklist.any (fun b => b.tokenAddress == addr) = true) :
    shouldBuyToken cfg st now addr = false := by
  simp [shouldBuyToken, h]

theorem shouldBuyToken_true_no_open (cfg : BuyConfig) (st : Store) (now : ℚ)
    (addr : String) (h : shouldBuyToken cfg st now addr = true) :
    st.trades.any (fun t => t.tokenAddress == addr && t.status == "OPEN") = false := by
  by_contra hne
  rw [Bool.not_eq_false] at hne
  rw [shouldBuyToken_false_of_any_open cfg st now addr hne] at h
  exact Bool.false_ne_true h

theorem openCountFor_recordBuy (st : Store) (data : BuyTokenData) (price amount : ℚ)
    (tx : Option String) (sid : Option String) (dec : Nat) (now : ℚ) (a : String) :
    openCountFor (recordBuyTransaction st data price amount tx sid dec now).2 a =
      openCountFor st a + (if (data.tokenAddress.getD "" == a) then 1 else 0) := by
  unfold recordBuyTransaction openCountFor
  simp only [List.filter_append, List.length_append]
  cases h : (data.tokenAddress.getD "" == a) <;> simp [h]

/-! ## Claims -/

/-- C3: for every configured profit target and stop loss, a trade inside the
2-hour cooldown (`in_cooldown = true`) with a price change strictly below 50%
is never marked for sale by `SellService._should_sell` — neither
`PROFIT_TARGET` nor `STOP_LOSS` (nor anything else) can fire, however large
the loss. -/
theorem claim_C3_cooldown_blocks_non_mega_exits (cfg : SellConfig) (pct : ℚ)
    (h : pct < 50) : shouldSell cfg pct true = none := by
  simp only [shouldSell]
  rw [if_neg (not_le.mpr h), if_pos trivial]

/-- Witness for C3 at a concrete input: a −90% crash inside cooldown with the
default 20/10 configuration still yields no exit. -/
theorem claim_C3_witness :
    (-90 : ℚ) < 50 ∧ shouldSell ⟨20, 10⟩ (-90) true = none :=
  ⟨by norm_num, claim_C3_cooldown_blocks_non_mega_exits ⟨20, 10⟩ (-90) (by norm_num)⟩

/-- C4: every OPEN trade whose `buy_time` lies at least 24 hours in the past is
marked for sale by `SellService.check_open_trades_for_sell` with reason
`TIMEOUT_24H`, for every price oracle — including one that always fails — and
for every configuration, overriding cooldown and the price rules.  (ℚ division
is total, so the model is insensitive to `buy_price = 0`, a value the buy path
never records since `execute_buy` insists on a positive price.) -/
theorem claim_C4_timeout24_always_marked (cfg : SellConfig) (st : Store) (now : ℚ)
    (oracle : String → Option ℚ) (t : Trade)
    (hmem : t ∈ st.trades) (hopen : t.status = "OPEN")
    (h24 : t.buyTime ≤ now - 24) :
    ∃ e ∈ checkOpenTradesForSell cfg st now oracle,
      e.trade = t ∧ e.sellReason = "TIMEOUT_24H" := by
  have hfilter : t ∈ st.trades.filter (fun u => u.status == "OPEN") :=
    List.mem_filter.mpr ⟨hmem, by simp [hopen]⟩
  have heval : evalOpenTrade cfg now oracle t =
      some ⟨t,
        if optTruthy (oracle t.tokenAddress) then (oracle t.tokenAddress).getD 0
        else t.buyPrice,
        if optTruthy (oracle t.tokenAddress) then
          (((oracle t.tokenAddress).getD 0 - t.buyPrice) / t.buyPrice) * 100
        else 0,
        "TIMEOUT_24H"⟩ := by
    unfold evalOpenTrade
    rw [if_pos (decide_eq_true h24)]
  exact ⟨_, List.mem_filterMap.mpr ⟨t, hfilter, heval⟩, rfl, rfl⟩

/-- A concrete OPEN trade bought at hour 1 (24+ hours before hour 30). -/
def sampleOpenTrade : Trade where
  id := 1
  tokenAddress := "TOKA"
  tokenSymbol := "TOKA"
  tokenName := "Token A"
  tokenDecimals := 9
  buyPrice := 10
  buyAmount := 1000
  buyTxHash := some "buyhash"
  buyTime := 1
  sellPrice := none
  sellAmount := none
  sellTxHash := none
  sellTime := none
  sellReason := none
  profitLossAmount := none
  profitLossPct := none
  status := "OPEN"
  suggestionId := none

/-- A store holding just `sampleOpenTrade`. -/
def sampleStore : Store := ⟨[sampleOpenTrade], [], 2⟩

/-- Witness for C4 at a concrete input: the price fetch fails for every token,
yet the 25-hour-old trade is marked `TIMEOUT_24H`. -/
theorem claim_C4_witness :
    sampleOpenTrade ∈ sampleStore.trades ∧ sampleOpenTrade.status = "OPEN" ∧
    sampleOpenTrade.buyTime ≤ (30 : ℚ) - 24 ∧
    ∃ e ∈ checkOpenTradesForSell ⟨20, 10⟩ sampleStore 30 (fun _ => none),
      e.trade = sampleOpenTrade ∧ e.sellReason = "TIMEOUT_24H" := by
  refine ⟨List.mem_cons_self _ _, rfl, by norm_num [sampleOpenTrade], ?_⟩
  exact claim_C4_timeout24_always_marked ⟨20, 10⟩ sampleStore 30 (fun _ => none)
    sampleOpenTrade (List.mem_cons_self _ _) rfl (by norm_num [sampleOpenTrade])

/-- C1: for every open trade and exit reason (any `TradeToSell`), if the real
sell swap produced no transaction hash (`sell_tokens` returned `None` or the
attempt raised — both modelled as `sellTxHash = none`), `execute_sell`
performs no database update at all: the store is returned unchanged, so the
trade stays OPEN with null sell fields.  Moreover every trade row of the
resulting store either is an untouched row of the input store or carries
exactly the hash the real on-chain swap returned — a synthetic hash
(`_simulate_sell_transaction` is never called from this path) can never be
recorded. -/
theorem claim_C1_failed_sell_leaves_store_untouched (env : SellExecEnv) (st : Store)
    (info : TradeToSell) :
    (env.sellTxHash = none → executeSell env st info = (none, st)) ∧
    (∀ t' ∈ (executeSell env st info).2.trades,
      t' ∈ st.trades ∨ ∃ tx, env.sellTxHash = some tx ∧ t'.sellTxHash = some tx) := by
  constructor
  · intro hnone
    unfold executeSell
    split
    · rfl
    · rw [hnone]
  · intro t' hmem
    rcases executeSell_store_cases env st info with hsame | ⟨sp, sa, tx, pl, plPct, htx, heq⟩
    · rw [hsame] at hmem
      exact Or.inl hmem
    · rw [heq, recordSellTransaction_trades] at hmem
      rcases List.mem_map.mp hmem with ⟨u, hu, hmap⟩
      by_cases hid : u.id = info.trade.id
      · rw [if_pos hid] at hmap
        refine Or.inr ⟨tx, htx, ?_⟩
        rw [← hmap]
        rfl
      · rw [if_neg hid] at hmap
        exact Or.inl (hmap ▸ hu)

/-- Witness for C1 at a concrete input: balance present, swap failed — the
store comes back exactly as it went in. -/
theorem claim_C1_witness :
    executeSell ⟨50, none, 40⟩ sampleStore ⟨sampleOpenTrade, 5, -50, "STOP_LOSS"⟩ =
      (none, sampleStore) :=
  (claim_C1_failed_sell_leaves_store_untouched ⟨50, none, 40⟩ sampleStore
    ⟨sampleOpenTrade, 5, -50, "STOP_LOSS"⟩).1 rfl

theorem tradeRowInv_closeTradeRow (t : Trade) (sp sa : ℚ) (tx r : String)
    (pl plPct now : ℚ) : tradeRowInv (closeTradeRow t sp sa tx r pl plPct now) := by
  unfold tradeRowInv closeTradeRow
  refine ⟨Or.inr rfl, ?_, ?_⟩
  · exact iff_of_false (by simp) (by simp)
  · exact iff_of_true rfl ⟨by simp, by simp⟩

theorem tradeRowInv_recordBuy (st : Store) (data : BuyTokenData) (price amount : ℚ)
    (tx : Option String) (sid : Option String) (dec : Nat) (now : ℚ) :
    tradeRowInv (recordBuyTransaction st data price amount tx sid dec now).1 := by
  unfold tradeRowInv recordBuyTransaction
  refine ⟨Or.inl rfl, iff_of_true rfl ⟨rfl, rfl, rfl, rfl⟩, iff_of_false (by simp) (by simp)⟩

/-- C2: `should_buy_token` answers `False` for every address that already has an
OPEN trade, and `execute_buy` inserts its OPEN row only behind that gate, so a
buy preserves "at most one OPEN trade per token address" in every reachable
store, for every environment and candidate. -/
theorem claim_C2_buy_preserves_single_open_position (cfg : BuyConfig) (env : BuyEnv)
    (st : Store) (data : BuyTokenData) (sid : Option String) :
    (∀ now addr, 0 < openCountFor st addr → shouldBuyToken cfg st now addr = false) ∧
    (atMostOneOpen st → atMostOneOpen (executeBuy cfg env st data sid).store) := by
  constructor
  · intro now addr hpos
    apply shouldBuyToken_false_of_any_open
    rcases List.exists_mem_of_length_pos hpos with ⟨t, ht⟩
    rcases List.mem_filter.mp ht with ⟨htr, hp⟩
    exact List.any_eq_true.mpr ⟨t, htr, hp⟩
  · intro hinv
    rcases executeBuy_store_cases cfg env st data sid with hsame | ⟨price, amount, tx, hsb, heq⟩
    · rw [hsame]; exact hinv
    · rw [heq]
      intro a
      rw [openCountFor_recordBuy]
      have hany := shouldBuyToken_true_no_open cfg st env.now _ hsb
      have hzero : openCountFor st (data.tokenAddress.getD "") = 0 := by
        unfold openCountFor
        rw [List.length_eq_zero, List.filter_eq_nil_iff]
        intro u hu hpu
        have : st.trades.any
            (fun t => t.tokenAddress == data.tokenAddress.getD "" && t.status == "OPEN") =
            true := List.any_eq_true.mpr ⟨u, hu, hpu⟩
        rw [hany] at this
        exact Bool.false_ne_true this
      by_cases hba : (data.tokenAddress.getD "" == a) = true
      · have haeq : data.tokenAddress.getD "" = a := by simpa using hba
        rw [if_pos hba, ← haeq, hzero]
      · rw [if_neg hba, Nat.add_zero]
        exact hinv a

/-- Witness for C2 at a concrete input: with an OPEN position on `TOKA` the
gate refuses `TOKA`, and a buy of another token keeps every open-count at
most 1. -/
theorem claim_C2_witness :
    shouldBuyToken ⟨true⟩ sampleStore 30 "TOKA" = false ∧
    atMostOneOpen (executeBuy ⟨true⟩ ⟨some 5, some (.legacy "txb"), 0, 9, 30⟩ sampleStore
      ⟨some "TOKB", "TOKB", "Token B", 5, none⟩ none).store := by
  have hone : atMostOneOpen sampleStore := by
    intro addr
    exact List.length_filter_le _ _
  exact ⟨(claim_C2_buy_preserves_single_open_position ⟨true⟩
      ⟨some 5, some (.legacy "txb"), 0, 9, 30⟩ sampleStore
      ⟨some "TOKB", "TOKB", "Token B", 5, none⟩ none).1 30 "TOKA" (by decide),
    (claim_C2_buy_preserves_single_open_position ⟨true⟩
      ⟨some 5, some (.legacy "txb"), 0, 9, 30⟩ sampleStore
      ⟨some "TOKB", "TOKB", "Token B", 5, none⟩ none).2 hone⟩

/-- C9: both writers of the `trades` table preserve the null-discipline: the
buy path inserts an OPEN row with every sell field null, and the close path
flips `status` to CLOSED in the same single UPDATE that sets all sell fields
— hence in every reachable store, `status = OPEN` iff the sell fields are
null, and `status = CLOSED` iff `sell_time` and `sell_price` are set. -/
theorem claim_C9_sell_fields_null_iff_open (cfg : BuyConfig) (benv : BuyEnv)
    (senv : SellExecEnv) (st : Store) (data : BuyTokenData) (sid : Option String)
    (info : TradeToSell) (hinv : storeInv st) :
    storeInv (executeBuy cfg benv st data sid).store ∧
    storeInv (executeSell senv st info).2 := by
  constructor
  · rcases executeBuy_store_cases cfg benv st data sid with hsame | ⟨price, amount, tx, _, heq⟩
    · rw [hsame]; exact hinv
    · rw [heq]
      intro u hu
      rcases List.mem_append.mp hu with hl | hr
      · exact hinv u hl
      · rw [List.mem_singleton.mp hr]
        exact tradeRowInv_recordBuy st data price amount tx sid benv.tokenDecimals benv.now
  · rcases executeSell_store_cases senv st info with hsame | ⟨sp, sa, tx, pl, plPct, _, heq⟩
    · rw [hsame]; exact hinv
    · rw [heq]
      intro u hu
      rw [recordSellTransaction_trades] at hu
      rcases List.mem_map.mp hu with ⟨v, hv, hmap⟩
      by_cases hid : v.id = info.trade.id
      · rw [if_pos hid] at hmap
        rw [← hmap]
        exact tradeRowInv_closeTradeRow v sp sa tx info.sellReason pl plPct senv.now
      · rw [if_neg hid] at hmap
        exact hmap ▸ hinv v hv

/-- Witness for C9 at a concrete input: the singleton store satisfies the
invariant, and it still holds after a successful buy of `TOKB` and after a
successful close of the open `TOKA` trade. -/
theorem claim_C9_witness :
    storeInv (executeBuy ⟨true⟩ ⟨some 5, some (.legacy "txb"), 0, 9, 30⟩ sampleStore
      ⟨some "TOKB", "TOKB", "Token B", 5, none⟩ none).store ∧
    storeInv (executeSell ⟨100, some "txs", 40⟩ sampleStore
      ⟨sampleOpenTrade, 13, 30, "PROFIT_TARGET"⟩).2 := by
  have hinv : storeInv sampleStore := by
    intro t ht
    rw [List.mem_singleton.mp ht]
    exact ⟨Or.inl rfl, iff_of_true rfl ⟨rfl, rfl, rfl, rfl⟩,
      iff_of_false (by decide) (by simp [sampleOpenTrade])⟩
  exact claim_C9_sell_fields_null_iff_open ⟨true⟩ ⟨some 5, some (.legacy "txb"), 0, 9, 30⟩
    ⟨100, some "txs", 40⟩ sampleStore ⟨some "TOKB", "TOKB", "Token B", 5, none⟩ none
    ⟨sampleOpenTrade, 13, 30, "PROFIT_TARGET"⟩ hinv

/-- A trader whose starting slippage for fresh tokens is the default 500 BPS. -/
def c5State : SlippageState := ⟨500, 1000, [], []⟩

/-- Every strategy fails. -/
def c5FailEnv : SellChainEnv := ⟨true, fun _ _ _ => none, fun _ => none⟩

/-- The slippage tolerance a step was quoted at (none for the Raydium route). -/
def stepSlippage : SellStep → Option Nat
  | SellStep.jupiter _ bps => some bps
  | SellStep.raydium _ => none

/-- Counterexample to C5 as stated: the third strategy does *not* run at the
default slippage tolerance.  With all strategies failing on a fresh token, the
third attempted step (the 95%-amount retry) is quoted at 2000 BPS — the
extreme slippage installed before attempt 2 is still in force — not at the
token's default tolerance of 500 BPS. -/
theorem claim_C5_counterexample :
    ((sellTokens c5State c5FailEnv "TOK" 100).2.2.get? 2).bind stepSlippage = some 2000 ∧
    ((sellTokens c5State c5FailEnv "TOK" 100).2.2.get? 2).bind stepSlippage ≠
      some c5State.defaultSlippageBps := by
  constructor
  · rfl
  · decide

/-- C5 (amended): `sell_tokens` runs the fixed fallback chain — standard
attempt at the token's starting slippage, widened retry after the delay,
95%-amount retry, then the native Raydium route — each step only on failure of
the previous one, returning the first successful hash and `none` only when all
fail; but both the widened retry *and* the 95%-amount retry run at the 2000 BPS
extreme tolerance (the token stays in `_extreme_slippage_tokens`), not at the
default tolerance. -/
theorem claim_C5_fallback_chain (st : SlippageState) (env : SellChainEnv)
    (token : String) (amount : ℚ) (hv : env.verifyAccounts = true) :
    sellTokens st env token amount =
      (let s1 := getSlippageForToken st token
       let stx : SlippageState :=
         { st with extremeSlippageTokens := token :: st.extremeSlippageTokens }
       match env.jupiterAttempt 1 amount s1 with
       | some h => (some h, st, [SellStep.jupiter amount s1])
       | none =>
         match env.jupiterAttempt 2 amount 2000 with
         | some h => (some h, stx, [SellStep.jupiter amount s1, SellStep.jupiter amount 2000])
         | none =>
           match env.jupiterAttempt 3 (amount * (95 / 100)) 2000 with
           | some h =>
               (some h, stx, [SellStep.jupiter amount s1, SellStep.jupiter amount 2000,
                              SellStep.jupiter (amount * (95 / 100)) 2000])
           | none =>
             match env.raydiumAttempt amount with
             | some h =>
                 (some h, stx, [SellStep.jupiter amount s1, SellStep.jupiter amount 2000,
                                SellStep.jupiter (amount * (95 / 100)) 2000,
                                SellStep.raydium amount])
             | none =>
                 (none, stx, [SellStep.jupiter amount s1, SellStep.jupiter amount 2000,
                              SellStep.jupiter (amount * (95 / 100)) 2000,
                              SellStep.raydium amount])) := by
  have h2000 : getSlippageForToken
      { st with extremeSlippageTokens := token :: st.extremeSlippageTokens } token = 2000 := by
    simp [getSlippageForToken]
  unfold sellTokens
  split
  · next hfalse =>
      rw [hv] at hfalse
      simp at hfalse
  · simp only [h2000]

/-- Witness for C5 at a concrete input: the widened retry (attempt 2) succeeds,
its hash is returned, the token is left in the extreme-slippage set, and
exactly the first two steps were attempted. -/
theorem claim_C5_witness :
    sellTokens c5State ⟨true, fun i _ _ => if i = 2 then some "hash2" else none, fun _ => none⟩
        "TOK" 100 =
      (some "hash2", (⟨500, 1000, [], ["TOK"]⟩ : SlippageState),
       [SellStep.jupiter 100 500, SellStep.jupiter 100 2000]) := by
  rw [claim_C5_fallback_chain c5State
    ⟨true, fun i _ _ => if i = 2 then some "hash2" else none, fun _ => none⟩ "TOK" 100 rfl]
  rfl

/-- A CLOSED trade of token `TOKC` bought today (hour 2 of a day starting at
hour 0). -/
def c6ClosedTrade (i : Nat) : Trade where
  id := i
  tokenAddress := "TOKC"
  tokenSymbol := "TOKC"
  tokenName := "Token C"
  tokenDecimals := 9
  buyPrice := 10
  buyAmount := 100
  buyTxHash := some "hb"
  buyTime := 2
  sellPrice := some 11
  sellAmount := some 100
  sellTxHash := some "hs"
  sellTime := some 3
  sellReason := some "PROFIT_TARGET"
  profitLossAmount := some 100
  profitLossPct := some 10
  status := "CLOSED"
  suggestionId := none

/-- A store in which `TOKC` has already been traded three times today. -/
def c6Store : Store := ⟨[c6ClosedTrade 1, c6ClosedTrade 2, c6ClosedTrade 3], [], 4⟩

/-- Counterexample to C6 as stated: `execute_buy` applies no daily cap.  At
hour 10 of the same day, with `TOKC` already at 3 trades today (the monitor's
cap), `execute_buy` still invokes the swap executor and records a fourth
trade. -/
theorem claim_C6_counterexample :
    3 ≤ tradesTodayCount c6Store 0 "TOKC" ∧
    (executeBuy ⟨true⟩ ⟨some 5, some (.legacy "txc"), 0, 9, 10⟩ c6Store
      ⟨some "TOKC", "TOKC", "Token C", 5, none⟩ none).swapInvoked = true ∧
    (executeBuy ⟨true⟩ ⟨some 5, some (.legacy "txc"), 0, 9, 10⟩ c6Store
      ⟨some "TOKC", "TOKC", "Token C", 5, none⟩ none).result.isSome = true := by
  have hfact : ¬((2 : ℚ) > 10 - 1 / 30) := by norm_num
  have h5ne : ((5 : ℚ) ≠ 0) := by norm_num
  have h5le : ¬((5 : ℚ) ≤ 0) := by norm_num
  have h5pos : (5 : ℚ) > 0 := by norm_num
  have hsb : shouldBuyToken ⟨true⟩ c6Store 10 "TOKC" = true := by
    simp [shouldBuyToken, c6Store, c6ClosedTrade]
    norm_num
  refine ⟨by decide, ?_, ?_⟩ <;>
    simp [executeBuy, suggestionIdTaken, hsb, resolveBuyPrice, resolveBuyAmount,
          optTruthy, getSolPrice, h5ne, h5le, h5pos]

/-- C6 (amended): `BuyService` itself enforces no daily cap — its admission
checks are the blacklist, the OPEN-position check, the 2-minute duplicate
window and the `suggestion_id` guard (see the counterexample).  The cap of 3
trades per token per day is enforced upstream by
`TradeMonitor._check_new_suggestions`, whose suggestion query never selects a
token whose trades-today count has reached 3, so such a token is never handed
to `execute_buy` by the monitor loop. -/
theorem claim_C6_daily_cap_enforced_by_monitor (st : Store) (now todayStart : ℚ)
    (s : Suggestion) (hcap : 3 ≤ tradesTodayCount st todayStart s.tokenAddress) :
    monitorSelectsSuggestion st now todayStart s = false := by
  unfold monitorSelectsSuggestion
  have hlt : decide (tradesTodayCount st todayStart s.tokenAddress < 3) = false :=
    decide_eq_false (Nat.not_lt.mpr hcap)
  simp [hlt]

/-- Witness for C6 at a concrete input: with `TOKC` at its daily cap, the
monitor's query does not select a fresh high-score suggestion for it. -/
theorem claim_C6_witness :
    monitorSelectsSuggestion c6Store 10 0 ⟨"sug1", "TOKC", "Token C", "TOKC", 5, 90, 19/2⟩ =
      false :=
  claim_C6_daily_cap_enforced_by_monitor c6Store 10 0
    ⟨"sug1", "TOKC", "Token C", "TOKC", 5, 90, 19/2⟩ (by decide)

/-- Final-phase token data irrelevant to the C7 scenarios (all checks pass). -/
def c7Final : EvalTokenData :=
  ⟨some 100000, some 150000, some 300000, some 90, some 48, some 800, some 5, some 1, some 0⟩

/-- A candidate with liquidity $20,000 (below the $50,000 floor) *and* market
cap $5,000,000 (above the $3,000,000 ceiling); every earlier phase passes. -/
def c7Data : TokenFetch where
  poolAgeHours := some 48
  basicInfoOk := true
  tokenAgeHours := some 48
  priceOk := true
  variation24h := some 5
  variation1h := some 1
  metricsOk := true
  mcap := 5000000
  liquidity := 20000
  volume24h := 50000
  holders := 500
  scoreOk := true
  dextScore := 90
  completeOk := true
  finalData := c7Final

/-- Counterexample to C7 as stated: a candidate below the liquidity floor is
*not* always rejected with category `liquidity` — the market-cap ceiling is
checked first, so `c7Data` is rejected with category `market_cap` despite its
$20,000 liquidity. -/
theorem claim_C7_counterexample :
    c7Data.liquidity < defaultCriteria.minLiquidity ∧
    analyzeToken defaultCriteria c7Data = .rejected "market_cap" ∧
    analyzeToken defaultCriteria c7Data ≠ .rejected "liquidity" := by
  refine ⟨by decide, by decide, by decide⟩

/-- C7 (amended): a candidate whose fetched liquidity is below the floor is
rejected with category `liquidity` regardless of its volume, holder count and
security score (which are only checked later), *provided* the earlier phases
pass — ages within bound, info/price/metrics fetches succeed, no excessive
price drop or decline, and the market-cap ceiling not breached. -/
theorem claim_C7_liquidity_floor_rejection (c : Criteria) (d : TokenFetch)
    (hpre : passesBeforeLiquidity c d = true) (hliq : d.liquidity < c.minLiquidity) :
    analyzeToken c d = .rejected "liquidity" := by
  simp only [passesBeforeLiquidity, Bool.and_eq_true, Bool.not_eq_true'] at hpre
  obtain ⟨⟨⟨⟨⟨⟨⟨⟨h1, h2⟩, h3⟩, h4⟩, h5⟩, h6⟩, h7⟩, h8⟩, h9⟩ := hpre
  have hmcap : ¬(d.mcap ≠ 0 ∧ d.mcap > c.maxMarketCap) := of_decide_eq_false h9
  simp [analyzeToken, h1, h2, h3, h4, h5, h6, h7, h8, hmcap, hliq]

/-- Scenario B of the spec: liquidity $20,000, all earlier phases passing
(market cap $100,000 is inside the ceiling). -/
def c7DataB : TokenFetch := { c7Data with mcap := 100000 }

/-- Witness for C7 at a concrete input: the scenario-B candidate is rejected
with category `liquidity`. -/
theorem claim_C7_witness :
    analyzeToken defaultCriteria c7DataB = .rejected "liquidity" :=
  claim_C7_liquidity_floor_rejection defaultCriteria c7DataB (by decide) (by decide)

/-- An OPEN trade of `TOKL` bought at $100 for 100 tokens. -/
def c8Trade : Trade where
  id := 7
  tokenAddress := "TOKL"
  tokenSymbol := "TOKL"
  tokenName := "Token L"
  tokenDecimals := 9
  buyPrice := 100
  buyAmount := 100
  buyTxHash := some "hb"
  buyTime := 1
  sellPrice := none
  sellAmount := none
  sellTxHash := none
  sellTime := none
  sellReason := none
  profitLossAmount := none
  profitLossPct := none
  status := "OPEN"
  suggestionId := none

/-- A store holding just `c8Trade` and an empty blacklist. -/
def c8Store : Store := ⟨[c8Trade], [], 8⟩

/-- Counterexample to C8 as stated: a trade closed with `sell_reason =
STOP_LOSS` does *not* always blacklist the token.  With the stop loss
configured at 5%, a 6% drop (price $94) triggers `STOP_LOSS`; selling the
9.95-token wallet balance (a fraction of the recorded amount) yields
`profit_loss_percentage = -6`, which fails the `<= -10` guard of
`_record_sell_transaction`, so the trade closes with `STOP_LOSS` while the
blacklist stays empty. -/
theorem claim_C8_counterexample :
    shouldSell ⟨20, 5⟩ (-6) false = some "STOP_LOSS" ∧
    ((executeSell ⟨10, some "txl", 50⟩ c8Store ⟨c8Trade, 94, -6, "STOP_LOSS"⟩).2.trades.map
      (fun t => (t.status, t.sellReason))) = [("CLOSED", some "STOP_LOSS")] ∧
    (executeSell ⟨10, some "txl", 50⟩ c8Store ⟨c8Trade, 94, -6, "STOP_LOSS"⟩).2.blacklist
      = [] := by
  refine ⟨by norm_num [shouldSell], ?_, ?_⟩ <;>
    norm_num [executeSell, recordSellTransaction, closeTradeRow, upsertBlacklist,
      c8Store, c8Trade]

/-- The row produced by the conflict branch of the blacklist upsert. -/
def updatedBlacklistEntry (b e : BlacklistEntry) : BlacklistEntry :=
  { b with lossPercentage := min b.lossPercentage e.lossPercentage,
           tradeId := e.tradeId, blacklistedAt := e.blacklistedAt }

/-- C8 (amended): when a trade closes via stop-loss *and* the computed
`profit_loss_percentage` is ≤ −10, the close operation upserts a blacklist
entry for its token; the upsert keeps the worst (most negative) loss — the new
entry's loss is never above the observed loss nor above the loss already
recorded for that token — and `should_buy_token` answers `False` for every
blacklisted address ever after. -/
theorem claim_C8_stop_loss_blacklisting :
    (∀ (st : Store) (tradeId : Nat) (sp sa : ℚ) (tx : String) (pl plPct now : ℚ)
        (tinfo : Trade),
      plPct ≤ -10 →
      st.trades.find? (fun t => t.id == tradeId) = some tinfo →
      (recordSellTransaction st tradeId sp sa tx "STOP_LOSS" pl plPct now).blacklist =
        upsertBlacklist st.blacklist
          ⟨tinfo.tokenAddress, tinfo.tokenSymbol, "Stop loss triggered", plPct, tradeId, now⟩) ∧
    (∀ (bl : List BlacklistEntry) (e : BlacklistEntry),
      (∃ b' ∈ upsertBlacklist bl e, b'.tokenAddress = e.tokenAddress ∧
        b'.lossPercentage ≤ e.lossPercentage) ∧
      (∀ b ∈ bl, b.tokenAddress = e.tokenAddress →
        ∃ b' ∈ upsertBlacklist bl e, b'.tokenAddress = e.tokenAddress ∧
          b'.lossPercentage ≤ b.lossPercentage ∧ b'.lossPercentage ≤ e.lossPercentage)) ∧
    (∀ (cfg : BuyConfig) (st : Store) (now : ℚ) (addr : String),
      (∃ b ∈ st.blacklist, b.tokenAddress = addr) →
      shouldBuyToken cfg st now addr = false) := by
  refine ⟨?_, ?_, ?_⟩
  · intro st tradeId sp sa tx pl plPct now tinfo hpl hfind
    unfold recordSellTransaction
    rw [if_pos ⟨rfl, hpl⟩, hfind]
  · intro bl e
    constructor
    · by_cases hany : bl.any (fun b => b.tokenAddress == e.tokenAddress) = true
      · rcases List.any_eq_true.mp hany with ⟨b0, hb0, hbeq⟩
        have hbaddr : b0.tokenAddress = e.tokenAddress := by simpa using hbeq
        refine ⟨updatedBlacklistEntry b0 e, ?_, hbaddr, ?_⟩
        · unfold upsertBlacklist
          rw [if_pos hany]
          exact List.mem_map.mpr ⟨b0, hb0, by rw [if_pos hbeq]; rfl⟩
        · exact min_le_right _ _
      · refine ⟨e, ?_, rfl, le_refl _⟩
        unfold upsertBlacklist
        rw [if_neg hany]
        exact List.mem_append.mpr (Or.inr (List.mem_singleton.mpr rfl))
    · intro b hb hbaddr
      have hany : bl.any (fun b => b.tokenAddress == e.tokenAddress) = true :=
        List.any_eq_true.mpr ⟨b, hb, by simpa using hbaddr⟩
      refine ⟨updatedBlacklistEntry b e, ?_, hbaddr,
        min_le_left _ _, min_le_right _ _⟩
      unfold upsertBlacklist
      rw [if_pos hany]
      exact List.mem_map.mpr ⟨b, hb, by rw [if_pos (by simpa using hbaddr)]; rfl⟩
  · intro cfg st now addr ⟨b, hb, hbaddr⟩
    exact shouldBuyToken_false_of_blacklisted cfg st now addr
      (List.any_eq_true.mpr ⟨b, hb, by simpa using hbaddr⟩)

/-- Witness for C8 at concrete inputs: a −12% stop-loss close of `c8Trade`
blacklists `TOKL`, and a blacklisted `TOKL` is refused by the buy gate. -/
theorem claim_C8_witness :
    (recordSellTransaction c8Store 7 88 10 "txw" "STOP_LOSS" (-120) (-12) 50).blacklist =
      upsertBlacklist c8Store.blacklist ⟨"TOKL", "TOKL", "Stop loss triggered", -12, 7, 50⟩ ∧
    shouldBuyToken ⟨true⟩ ⟨[], [⟨"TOKL", "TOKL", "Stop loss triggered", -12, 7, 50⟩], 1⟩
      0 "TOKL" = false := by
  constructor
  · exact claim_C8_stop_loss_blacklisting.1 c8Store 7 88 10 "txw" (-120) (-12) 50 c8Trade
      (by norm_num) rfl
  · exact claim_C8_stop_loss_blacklisting.2.2 ⟨true⟩
      ⟨[], [⟨"TOKL", "TOKL", "Stop loss triggered", -12, 7, 50⟩], 1⟩ 0 "TOKL"
      ⟨⟨"TOKL", "TOKL", "Stop loss triggered", -12, 7, 50⟩, List.mem_singleton.mpr rfl, rfl⟩

/-- Whatever branch `execute_buy` takes, a recorded trade's `buy_price` is the
price `resolveBuyPrice` settled on. -/
theorem executeBuy_result_price (cfg : BuyConfig) (env : BuyEnv) (st : Store)
    (data : BuyTokenData) (sid : Option String) (t : Trade)
    (h : (executeBuy cfg env st data sid).result = some t) :
    ∃ price, resolveBuyPrice env.priceFetch data.priceUsd = some price ∧
      t.buyPrice = price := by
  unfold executeBuy at h
  split at h
  · exact absurd h (by simp)
  · split at h
    · exact absurd h (by simp)
    · split at h
      · exact absurd h (by simp)
      · split at h
        · exact absurd h (by simp)
        · next price hprice =>
            split at h
            · exact absurd h (by simp)
            · split at h
              · exact absurd h (by simp)
              · refine ⟨price, hprice, ?_⟩
                rw [← Option.some.inj h]
                rfl

/-- When the live price fetch fails or is non-positive, `resolveBuyPrice`
falls back to the snapshot price, cancelling only a non-positive snapshot. -/
theorem resolveBuyPrice_fallback (fetched : Option ℚ) (priceUsd : ℚ)
    (hfetch : fetched = none ∨ ∃ p, fetched = some p ∧ p ≤ 0) :
    resolveBuyPrice fetched priceUsd =
      if priceUsd ≤ 0 then none else some priceUsd := by
  rcases hfetch with h | ⟨p, hp, hple⟩
  · subst h
    unfold resolveBuyPrice
    simp [optTruthy]
  · subst hp
    unfold resolveBuyPrice
    simp [hple]

/-- C10: when the live market-price fetch fails or returns a non-positive
price, `execute_buy` does not abort: it falls back to the candidate snapshot's
`price_usd`, records that stale value as `buy_price` on any trade it creates,
and still invokes the swap when the admission gates pass; the buy is cancelled
(nothing recorded, no swap, store untouched) only when the fallback price is
also non-positive. -/
theorem claim_C10_snapshot_price_fallback (cfg : BuyConfig) (env : BuyEnv) (st : Store)
    (data : BuyTokenData) (sid : Option String)
    (hfetch : env.priceFetch = none ∨ ∃ p, env.priceFetch = some p ∧ p ≤ 0) :
    (0 < data.priceUsd →
      resolveBuyPrice env.priceFetch data.priceUsd = some data.priceUsd ∧
      (∀ t, (executeBuy cfg env st data sid).result = some t →
        t.buyPrice = data.priceUsd) ∧
      (¬(data.tokenAddress = none ∨ data.tokenAddress = some "") →
        suggestionIdTaken st sid = false →
        shouldBuyToken cfg st env.now (data.tokenAddress.getD "") = true →
        (executeBuy cfg env st data sid).swapInvoked = true)) ∧
    (data.priceUsd ≤ 0 →
      (executeBuy cfg env st data sid).result = none ∧
      (executeBuy cfg env st data sid).store = st ∧
      (executeBuy cfg env st data sid).swapInvoked = false) := by
  have hres := resolveBuyPrice_fallback env.priceFetch data.priceUsd hfetch
  constructor
  · intro hpos
    have hres' : resolveBuyPrice env.priceFetch data.priceUsd = some data.priceUsd := by
      rw [hres, if_neg (not_le.mpr hpos)]
    refine ⟨hres', ?_, ?_⟩
    · intro t ht
      rcases executeBuy_result_price cfg env st data sid t ht with ⟨price, hp, hbp⟩
      rw [hres'] at hp
      rw [hbp, Option.some.inj hp]
    · intro haddr hsid hsb
      unfold executeBuy
      rw [if_neg haddr, if_neg (by simp [hsid]), if_neg (by simp [hsb]), hres']
      dsimp only
      cases env.swapResult with
      | none => rfl
      | some br =>
          dsimp only
          cases resolveBuyAmount br env.realBalance data.priceUsd with
          | none => rfl
          | some pair =>
              cases pair
              rfl
  · intro hle
    have hres0 : resolveBuyPrice env.priceFetch data.priceUsd = none := by
      rw [hres, if_pos hle]
    unfold executeBuy
    split
    · exact ⟨rfl, rfl, rfl⟩
    · split
      · exact ⟨rfl, rfl, rfl⟩
      · split
        · exact ⟨rfl, rfl, rfl⟩
        · rw [hres0]
          exact ⟨rfl, rfl, rfl⟩

/-- A buy environment whose live price fetch came back `0.0` (falsy). -/
def c10Env : BuyEnv := ⟨some 0, some (.legacy "txd"), 0, 9, 30⟩

/-- A candidate snapshot carrying `price_usd = 5`. -/
def c10Data : BuyTokenData := ⟨some "TOKD", "TOKD", "Token D", 5, none⟩

/-- Witness for C10 at a concrete input: the fetch returned `0.0`, yet the swap
runs and the recorded trade's `buy_price` is the snapshot's $5. -/
theorem claim_C10_witness :
    (executeBuy ⟨true⟩ c10Env sampleStore c10Data none).swapInvoked = true ∧
    (executeBuy ⟨true⟩ c10Env sampleStore c10Data none).result.map Trade.buyPrice =
      some 5 := by
  have hsb : shouldBuyToken ⟨true⟩ sampleStore 30 "TOKD" = true := by
    simp [shouldBuyToken, sampleStore, sampleOpenTrade]
  constructor
  · exact ((claim_C10_snapshot_price_fallback ⟨true⟩ c10Env sampleStore c10Data none
      (Or.inr ⟨0, rfl, le_refl 0⟩)).1 (by norm_num [c10Data])).2.2
      (by simp [c10Data]) rfl hsb
  · have h5le : ¬((5 : ℚ) ≤ 0) := by norm_num
    have h5pos : (5 : ℚ) > 0 := by norm_num
    simp [executeBuy, suggestionIdTaken, hsb, resolveBuyPrice, resolveBuyAmount,
      optTruthy, getSolPrice, h5le, h5pos, c10Env, c10Data, recordBuyTransaction]

end SmartCurrency
